import Mathlib

/-!
Verification development for the Fyre (de Jong Explorer) rendering engine.

The GTK front end lives in src/interface.c; the rendering core
(run_iterations, clear, update_pixels, save_to_file, the render globals)
is declared and called there but its body is not part of the available
sources, so those operations are modelled from the specification and are
marked as such in their doc comments.  Everything taken from
src/interface.c cites the function it embeds.

Numeric conventions: C doubles and floats are idealised as rationals,
machine integer wrap-around is made explicit with a modulus where the C
code relies on it, and C integer division on glong values is modelled
with truncation toward zero (Int.tdiv), matching C99 semantics.
-/

namespace Fyre

/-- A `GTimeVal` as used by glib: seconds and microseconds, both signed
machine integers, idealised as unbounded integers (the claims under
study never exercise 32/64-bit overflow of the fields themselves). -/
structure GTimeVal where
  sec : ℤ
  usec : ℤ
  deriving DecidableEq

/-- The millisecond difference computed by `limit_update_rate`
(src/interface.c lines 96-97):
`(now.tv_usec - last_update.tv_usec) / 1000 + (now.tv_sec - last_update.tv_sec) * 1000`.
C division of signed integers truncates toward zero, hence `Int.tdiv`. -/
def elapsed_ms (last_update now : GTimeVal) : ℤ :=
  (now.usec - last_update.usec).tdiv 1000 + (now.sec - last_update.sec) * 1000

/-- The conversion of the signed millisecond difference to the unsigned
`gulong diff` variable (src/interface.c line 92), i.e. reduction modulo
2^64 = 18446744073709551616 (gulong is 64-bit on the primary target). -/
def gulong_of (z : ℤ) : ℕ :=
  (z % 18446744073709551616).toNat

/-- The true elapsed time in microseconds between two timestamps; used
to compare the code's computed millisecond difference against real time. -/
def real_elapsed_us (last_update now : GTimeVal) : ℤ :=
  (now.sec - last_update.sec) * 1000000 + (now.usec - last_update.usec)

/-- Embedding of `limit_update_rate` (src/interface.c lines 85-106).
The static local `last_update` is passed in and returned explicitly.
Returns `1` (do not render) when `diff < 1000 / max_rate`, else records
`now` into `last_update` and returns `0` (render).  The C comparison is
between `diff` converted to floating point and the float
`1000 / max_rate`; both are idealised as exact rationals. -/
def limit_update_rate (max_rate : ℚ) (last_update now : GTimeVal) :
    ℕ × GTimeVal :=
  if ((gulong_of (elapsed_ms last_update now) : ℚ)) < 1000 / max_rate then
    (1, last_update)
  else
    (0, now)

/-- The maximum frame rate computed by `auto_limit_update_rate`
(src/interface.c line 119): `200 / (1 + (log(render.iterations) - 9.21) * 5)`.
`L` stands for the natural logarithm of the current total iteration
count `render.iterations`. -/
def auto_max_rate (L : ℚ) : ℚ :=
  200 / (1 + (L - 921 / 100) * 5)

/-- Embedding of `auto_limit_update_rate` (src/interface.c lines 108-120),
parameterised by `L = log(render.iterations)`. -/
def auto_limit_update_rate (L : ℚ) (last_update now : GTimeVal) :
    ℕ × GTimeVal :=
  limit_update_rate (auto_max_rate L) last_update now

/-- The target update interval in milliseconds implied by
`auto_limit_update_rate`: a frame is permitted once the computed
millisecond difference reaches `1000 / auto_max_rate L`. -/
def target_interval_ms (L : ℚ) : ℚ :=
  1000 / auto_max_rate L

/-- An 8-bit-per-channel RGB color (the GdkColor / packed pixel values of
the source, idealised as unbounded naturals clamped to 0..255 where the
tone mapper produces them). -/
structure Color where
  r : ℕ
  g : ℕ
  b : ℕ
  deriving DecidableEq

/-- The ParameterSet of the spec (section 3): de Jong coefficients and
view transform.  In the source these are the fields of the `params`
global mutated by the (commented-out) spinner reads in
src/interface.c lines 182-191. -/
structure ParamSet where
  a : ℚ
  b : ℚ
  c : ℚ
  d : ℚ
  zoom : ℚ
  xoffset : ℚ
  yoffset : ℚ
  rotation : ℚ
  blurRadius : ℚ
  blurFraction : ℚ
  deriving DecidableEq

/-- The DensityBuffer of the spec (section 3): a width x height grid of
hit counts plus the running peak count (`render.current_density` in the
source, displayed by `update_gui` at src/interface.c line 139). -/
structure DensityBuffer where
  width : ℕ
  height : ℕ
  cells : ℕ × ℕ → ℕ
  peak : ℕ

/-- A C double observed by the engine: either a finite value (idealised
as a rational) or a non-finite one (NaN or an infinity).  Finiteness is
the only float property the divergence-recovery claims depend on. -/
inductive FloatVal where
  | fin (q : ℚ)
  | nonfin
  deriving DecidableEq

/-- The full mutable state the source keeps in the `render` and `params`
globals together with the idle-handler registration: density data,
iteration state, tone-mapping settings, pixel output, the dirty flag
(`render.dirty_flag`) and whether the idle handler is installed. -/
structure RenderState where
  params : ParamSet
  buffer : DensityBuffer
  point : ℚ × ℚ
  iterations : ℚ
  deposits : ℕ
  reseeds : ℕ
  dirty : Bool
  exposure : ℚ
  gamma : ℚ
  fgcolor : Color
  bgcolor : Color
  pixels : ℕ × ℕ → Color
  running : Bool

/-- The three observable session modes of the spec (section 4.4). -/
inductive SessionMode where
  | Idle
  | Accumulating
  | Dirty
  deriving DecidableEq

/-- The accumulation mode ignoring the dirty flag: `Idle` when no
iterations have been accumulated since the last clear, else
`Accumulating`. -/
def accum_mode (s : RenderState) : SessionMode :=
  if s.iterations = 0 then SessionMode.Idle else SessionMode.Accumulating

/-- The session mode of the spec's state machine (section 4.4). -/
def session_mode (s : RenderState) : SessionMode :=
  if s.dirty then SessionMode.Dirty else accum_mode s

/-- Modelled from the spec: the deterministic small perturbation near the
origin to which the engine reseeds the iterated point after detecting a
non-finite map state (spec sections 4.1 and 7); the engine body is in
main.c, which is not among the available sources. -/
def reseed_point : ℚ × ℚ :=
  (1 / 1000, 1 / 1000)

/-- Modelled from the spec: the initial iterated point installed by a
reset of IterationState (spec section 3). -/
def seed_point : ℚ × ℚ :=
  (1 / 2, 1 / 2)

/-- `increment` of DensityBuffer (spec section 4.2), for an in-bounds
cell: bump the cell and update the running peak. -/
def increment (b : DensityBuffer) (c : ℕ × ℕ) : DensityBuffer :=
  { b with
    cells := fun c2 => if c2 = c then b.cells c2 + 1 else b.cells c2
    peak := max b.peak (b.cells c + 1) }

/-- Modelled from the spec: one step of `IterationEngine.advance`
(spec section 4.1).  `f` is the de Jong map composed with float
evaluation (its transcendental body is abstracted; it reports a
non-finite result as `FloatVal.nonfin`), and `plotFn` is the view
transform plus this step's blur jitter, yielding integer buffer
coordinates.  A finite step stores the new point and, when the mapped
cell is in bounds, increments that cell (out-of-bounds samples are
silently dropped); a non-finite step reseeds the point to
`reseed_point`, counts the reseed, and deposits nothing.  The
iteration counter advances in every case. -/
def engine_step (f : ℚ × ℚ → FloatVal × FloatVal)
    (plotFn : ℚ × ℚ → ℤ × ℤ) (s : RenderState) : RenderState :=
  match f s.point with
  | (FloatVal.fin x, FloatVal.fin y) =>
      let c := plotFn (x, y)
      if 0 ≤ c.1 ∧ c.1 < (s.buffer.width : ℤ) ∧
         0 ≤ c.2 ∧ c.2 < (s.buffer.height : ℤ) then
        { s with
          point := (x, y)
          iterations := s.iterations + 1
          deposits := s.deposits + 1
          buffer := increment s.buffer (c.1.toNat, c.2.toNat) }
      else
        { s with point := (x, y), iterations := s.iterations + 1 }
  | _ =>
      { s with
        point := reseed_point
        iterations := s.iterations + 1
        reseeds := s.reseeds + 1 }

/-- Modelled from the spec: `advance` iterated, threading the index `k`
of the injectable randomness stream consumed by the blur jitter
(spec sections 4.1 and 9), so `plot k` is the view transform with the
k-th jitter decision. -/
def advance_from (f : ℚ × ℚ → FloatVal × FloatVal)
    (plot : ℕ → ℚ × ℚ → ℤ × ℤ) : ℕ → ℕ → RenderState → RenderState
  | _, 0, s => s
  | k, n + 1, s => advance_from f plot (k + 1) n (engine_step f (plot k) s)

/-- Modelled from the spec: `run_iterations(count)` — the engine entry
point invoked by `interactive_idle_handler` (src/interface.c line 161);
its body is in main.c, which is not among the available sources. -/
def run_iterations (f : ℚ × ℚ → FloatVal × FloatVal)
    (plot : ℕ → ℚ × ℚ → ℤ × ℤ) (count : ℕ) (s : RenderState) : RenderState :=
  advance_from f plot 0 count s

/-- Modelled from the spec: `clear()` — called by `on_start_clicked`
(src/interface.c line 177) but defined in main.c, which is not among the
available sources.  Per spec sections 4.2 and 4.4 it zeroes every
DensityBuffer cell, resets the peak density, resets IterationState
(point and counter), and sets the DirtyFlag false.  Parameters and
cosmetic settings are untouched. -/
def clear (s : RenderState) : RenderState :=
  { s with
    buffer := { s.buffer with cells := fun _ => 0, peak := 0 }
    point := seed_point
    iterations := 0
    dirty := false }

/-- Embedding of `on_start_clicked` (src/interface.c lines 176-194):
calls `clear()` and re-installs the idle handler.  The spin-button reads
in its body are commented out in the source and therefore absent here. -/
def on_start_clicked (s : RenderState) : RenderState :=
  { clear s with running := true }

/-- Embedding of `on_stop_clicked` (src/interface.c lines 196-202):
removes the idle handler. -/
def on_stop_clicked (s : RenderState) : RenderState :=
  { s with running := false }

/-- Embedding of `on_param_spinner_changed` (src/interface.c lines
204-207): stop, then start (which clears). -/
def on_param_spinner_changed (s : RenderState) : RenderState :=
  on_start_clicked (on_stop_clicked s)

/-- A map-parameter edit carrying the spinner's new value.  The handler
`on_param_spinner_changed` never reads the value (the reads at
src/interface.c lines 182-191 are commented out), so the value is
ignored; the definition exists so range-validation claims about
value-carrying mutations can be stated against the code. -/
def param_spinner_edit (_newValue : ℚ) (s : RenderState) : RenderState :=
  on_param_spinner_changed s

/-- Embedding of `on_render_spinner_changed` (src/interface.c lines
209-215): a cosmetic edit.  It only sets `render.dirty_flag`; the
exposure/gamma reads in its body are commented out in the source. -/
def on_render_spinner_changed (s : RenderState) : RenderState :=
  { s with dirty := true }

/-- Clamp a rational channel value to the 0..255 range and truncate to a
natural, as the tone mapper's final channel packing does. -/
def clamp_channel (q : ℚ) : ℕ :=
  (max 0 (min 255 ⌊q⌋)).toNat

/-- Blend one channel between background (brightness 0) and foreground
(brightness 1), clamped to the valid range (spec section 4.3). -/
def blend_channel (bg fg : ℕ) (brightness : ℚ) : ℕ :=
  clamp_channel ((bg : ℚ) + ((fg : ℚ) - (bg : ℚ)) * brightness)

/-- Modelled from the spec: `ToneMapper.computePixels` (spec section
4.3); the implementation (`update_pixels` internals) is in main.c, which
is not among the available sources.  Per cell: normalised brightness is
the cell count relative to the peak density, scaled by `exposure`, then
pushed through the display-linearising gamma curve; the final color
blends `bgColor` toward `fgColor`, clamped per channel.  The curve
`x ^ (1 / gamma)` is transcendental, so it is abstracted as the
injectable parameter `gcurve gamma x`. -/
def computePixels (gcurve : ℚ → ℚ → ℚ) (buf : DensityBuffer)
    (exposure gammaVal : ℚ) (fg bg : Color) : ℕ × ℕ → Color :=
  fun c =>
    let ratio : ℚ := if buf.peak = 0 then 0 else (buf.cells c : ℚ) / (buf.peak : ℚ)
    let brightness := min 1 (max 0 (gcurve gammaVal (ratio * exposure)))
    { r := blend_channel bg.r fg.r brightness
      g := blend_channel bg.g fg.g brightness
      b := blend_channel bg.b fg.b brightness }

/-- Modelled from the spec: `update_pixels()` — called by `update_gui`
(src/interface.c line 146) but defined in main.c, which is not among the
available sources.  It recomputes the RGB pixel buffer from the density
buffer and the current tone-mapping settings via the ToneMapper alone,
and, since the DirtyFlag means "parameters changed since last full
recompute" (spec section 3), a full recompute resets it. -/
def update_pixels (gcurve : ℚ → ℚ → ℚ) (s : RenderState) : RenderState :=
  { s with
    pixels := computePixels gcurve s.buffer s.exposure s.gamma s.fgcolor s.bgcolor
    dirty := false }

/-- Embedding of `update_gui` (src/interface.c lines 122-148),
parameterised by `L = log(render.iterations)` for the auto rate limit.
When the dirty flag is clear, the rate limiter may veto the frame
(returning the state untouched); otherwise the limiter is skipped
entirely.  A rendered frame runs `update_pixels` and redraws; the
returned Bool records whether the frame was rendered.  The statusbar
text is display-only and not modelled. -/
def update_gui (gcurve : ℚ → ℚ → ℚ) (L : ℚ) (now : GTimeVal)
    (s : RenderState) (last_update : GTimeVal) :
    RenderState × GTimeVal × Bool :=
  if s.dirty then
    (update_pixels gcurve s, last_update, true)
  else
    let lim := auto_limit_update_rate L last_update now
    if lim.1 = 1 then
      (s, last_update, false)
    else
      (update_pixels gcurve s, lim.2, true)

/-- Embedding of `interactive_idle_handler` (src/interface.c lines
157-164): run 10000 iterations, update the GUI, return 1 to stay
installed. -/
def interactive_idle_handler (gcurve : ℚ → ℚ → ℚ)
    (f : ℚ × ℚ → FloatVal × FloatVal) (plot : ℕ → ℚ × ℚ → ℤ × ℤ)
    (L : ℚ) (now : GTimeVal) (s : RenderState) (last_update : GTimeVal) :
    (RenderState × GTimeVal × Bool) × ℕ :=
  (update_gui gcurve L now (run_iterations f plot 10000 s) last_update, 1)

/-- The distinct exporter failure kinds of the spec (section 7). -/
inductive SaveError where
  | PathUnwritable
  | EmptyBuffer
  deriving DecidableEq

/-- Modelled from the spec: `save_to_file(filename)` — called by
`on_save_clicked` (src/interface.c line 296) but defined in main.c,
which is not among the available sources.  `writable` is the
environment's judgement of the path (filesystem state is injected).
Failure is an ordinary return value, never a fatal condition: the
function is total into `Except`. -/
def save_to_file (writable : String → Bool) (w h : ℕ)
    (_px : ℕ × ℕ → Color) (path : String) : Except SaveError Unit :=
  if w = 0 ∨ h = 0 then
    Except.error SaveError.EmptyBuffer
  else if writable path then
    Except.ok ()
  else
    Except.error SaveError.PathUnwritable

/-- The accepted branch of `on_save_clicked` (src/interface.c lines
293-298): call `save_to_file` with the chosen path; the render state is
passed through untouched, so the result pairs the save outcome with the
unchanged state. -/
def on_save_clicked (writable : String → Bool) (path : String)
    (s : RenderState) : Except SaveError Unit × RenderState :=
  (save_to_file writable s.buffer.width s.buffer.height s.pixels path, s)

/-- A pair of timestamps 999001 microseconds apart whose per-field
millisecond conversion (truncating the negative microsecond difference
toward zero) comes out as a full 1000 ms. -/
def cex_last : GTimeVal := { sec := 0, usec := 999999 }

/-- See `cex_last`. -/
def cex_now : GTimeVal := { sec := 1, usec := 999000 }

/-- The spec's concrete-scenario coefficients (section 8): a = 1.4,
b = -2.3, c = 2.4, d = -2.1, zoom 1, offsets 0, rotation 0, blur 0. -/
def default_params : ParamSet :=
  { a := 7 / 5, b := -23 / 10, c := 12 / 5, d := -21 / 10
    zoom := 1, xoffset := 0, yoffset := 0, rotation := 0
    blurRadius := 0, blurFraction := 0 }

/-- Black, the default background. -/
def black : Color := { r := 0, g := 0, b := 0 }

/-- White, the default foreground. -/
def white : Color := { r := 255, g := 255, b := 255 }

/-- A 4x4 density buffer holding a single accumulated sample at the
origin cell; used as a concrete session with accumulation in progress. -/
def cex_buffer : DensityBuffer :=
  { width := 4, height := 4
    cells := fun c => if c = (0, 0) then 1 else 0
    peak := 1 }

/-- A concrete mid-accumulation session: one sample accumulated, clean
pixel state, idle handler running. -/
def cex_session : RenderState :=
  { params := default_params, buffer := cex_buffer, point := seed_point
    iterations := 1, deposits := 1, reseeds := 0, dirty := false
    exposure := 1, gamma := 1, fgcolor := white, bgcolor := black
    pixels := fun _ => black, running := true }

/-- `cex_session` with differing iteration count, diagnostics and idler
registration but identical density buffer and tone-map settings. -/
def alt_session : RenderState :=
  { cex_session with
    iterations := 5
    deposits := 9
    reseeds := 2
    running := false }

/-- `cex_session` just after a cosmetic edit: dirty flag set. -/
def dirty_session : RenderState :=
  { cex_session with dirty := true }

/-- The identity tone curve, a concrete instantiation of the abstract
gamma curve (gamma = 1 gives the identity in the spec's formula). -/
def linear_curve : ℚ → ℚ → ℚ := fun _ x => x

/-- A map that always diverges: both output coordinates non-finite. -/
def nonfin_map : ℚ × ℚ → FloatVal × FloatVal :=
  fun _ => (FloatVal.nonfin, FloatVal.nonfin)

/-- A view transform landing every sample on the origin cell. -/
def origin_plot : ℚ × ℚ → ℤ × ℤ := fun _ => (0, 0)

/-- A filesystem in which no path is writable. -/
def unwritable_env : String → Bool := fun _ => false

lemma target_interval_ms_eq (L : ℚ) :
    target_interval_ms L = 25 * L - 901 / 4 := by
  unfold target_interval_ms auto_max_rate
  rcases eq_or_ne (1 + (L - 921 / 100) * 5) 0 with h | h
  · have hL : L = 901 / 100 := by linarith
    rw [h]
    simp [hL]
    norm_num
  · field_simp
    ring

lemma target_interval_ms_mono {L1 L2 : ℚ} (h : L1 ≤ L2) :
    target_interval_ms L1 ≤ target_interval_ms L2 := by
  rw [target_interval_ms_eq, target_interval_ms_eq]
  linarith

lemma engine_step_iterations (f : ℚ × ℚ → FloatVal × FloatVal)
    (plotFn : ℚ × ℚ → ℤ × ℤ) (s : RenderState) :
    (engine_step f plotFn s).iterations = s.iterations + 1 := by
  unfold engine_step
  rcases hf : f s.point with ⟨a, b⟩
  cases a <;> cases b <;> first
    | rfl
    | (dsimp only; split <;> rfl)

lemma engine_step_deposits_le (f : ℚ × ℚ → FloatVal × FloatVal)
    (plotFn : ℚ × ℚ → ℤ × ℤ) (s : RenderState) :
    (engine_step f plotFn s).deposits ≤ s.deposits + 1 := by
  unfold engine_step
  rcases hf : f s.point with ⟨a, b⟩
  cases a <;> cases b <;> first
    | exact Nat.le_succ _
    | (dsimp only; split <;> simp)

lemma advance_from_spec (f : ℚ × ℚ → FloatVal × FloatVal)
    (plot : ℕ → ℚ × ℚ → ℤ × ℤ) :
    ∀ (n k : ℕ) (s : RenderState),
      (advance_from f plot k n s).iterations = s.iterations + n ∧
        (advance_from f plot k n s).deposits ≤ s.deposits + n := by
  intro n
  induction n with
  | zero =>
      intro k s
      simp [advance_from]
  | succ m ih =>
      intro k s
      have hstep1 := engine_step_iterations f (plot k) s
      have hstep2 := engine_step_deposits_le f (plot k) s
      have hrec := ih (k + 1) (engine_step f (plot k) s)
      have hunf : advance_from f plot k (m + 1) s
          = advance_from f plot (k + 1) m (engine_step f (plot k) s) := rfl
      constructor
      · rw [hunf, hrec.1, hstep1]
        push_cast
        ring
      · rw [hunf]
        calc (advance_from f plot (k + 1) m (engine_step f (plot k) s)).deposits
            ≤ (engine_step f (plot k) s).deposits + m := hrec.2
          _ ≤ (s.deposits + 1) + m := Nat.add_le_add_right hstep2 m
          _ = s.deposits + (m + 1) := by omega

/-- Claim C10, counterexample: with `max_rate = 1` (so a claimed minimum
separation of 1000 ms, i.e. 1000000 us) the limiter permits a frame
(returns 0) although only 999001 us have elapsed since `last_update`:
the truncation toward zero of the negative microsecond difference in
`elapsed_ms` over-counts the elapsed time by up to one millisecond, so
"at least 1000/max_rate milliseconds have elapsed" does not hold at the
moment the frame is permitted. -/
theorem limiter_permits_under_interval_cex :
    (limit_update_rate 1 cex_last cex_now).1 = 0 ∧
      real_elapsed_us cex_last cex_now < 1000000 := by
  constructor
  · have h1 : gulong_of (elapsed_ms cex_last cex_now) = 1000 := by decide
    unfold limit_update_rate
    rw [h1, if_neg (by norm_num)]
  · decide

/-- Claim C10, amended: `limit_update_rate` records `now` into its
static `last_update` exactly when it permits a frame (returns 0), which
happens exactly when the millisecond difference it computes — the
truncating-division expression `elapsed_ms`, converted to an unsigned
gulong — is at least `1000 / max_rate`; otherwise it returns 1 and
leaves `last_update` untouched.  Consequently consecutive permitted
frames are separated by at least `1000 / max_rate` of these computed
milliseconds, though the true elapsed time may fall short of that by up
to one millisecond (see the counterexample). -/
theorem limiter_permit_characterization (max_rate : ℚ)
    (last_update now : GTimeVal) :
    (limit_update_rate max_rate last_update now = (0, now) ∧
        1000 / max_rate ≤ (gulong_of (elapsed_ms last_update now) : ℚ)) ∨
      (limit_update_rate max_rate last_update now = (1, last_update) ∧
        (gulong_of (elapsed_ms last_update now) : ℚ) < 1000 / max_rate) := by
  unfold limit_update_rate
  by_cases h : (gulong_of (elapsed_ms last_update now) : ℚ) < 1000 / max_rate
  · right
    simp [h]
  · left
    simp [h, le_of_not_lt h]

/-- Claim C1, counterexample: at a low total iteration count
(`render.iterations = 1`, so `L = log 1 = 0`) the computed maximum
frame rate is negative, and the limiter then permits a frame even with
zero elapsed time since the last permitted frame — so the update
frequency has no ceiling (the host loop can be flooded), contradicting
the claimed floor-and-ceiling clamp. -/
theorem auto_rate_flooding_cex :
    auto_max_rate 0 < 0 ∧
      (auto_limit_update_rate 0 { sec := 0, usec := 0 }
        { sec := 0, usec := 0 }).1 = 0 := by
  constructor
  · norm_num [auto_max_rate]
  · have h1 : gulong_of (elapsed_ms { sec := 0, usec := 0 }
        { sec := 0, usec := 0 }) = 0 := by decide
    unfold auto_limit_update_rate limit_update_rate
    rw [h1, if_neg (by norm_num [auto_max_rate])]

/-- Claim C1, amended: `auto_limit_update_rate` computes the target
interval `1000 / auto_max_rate L = 25 L - 225.25` milliseconds, which
grows monotonically in `L = log(iterations)` (hence in the iteration
count), but no floor or ceiling is enforced on the update frequency:
for every `L ≤ 9.01` the denominator of the rate is non-positive and
the limiter permits every frame regardless of elapsed time (no
frequency ceiling), and for every positive bound there is an `L` at
which the positive computed rate falls below it (no frequency floor). -/
theorem auto_limit_interval_monotone_unclamped :
    (∀ L1 L2 : ℚ, L1 ≤ L2 → target_interval_ms L1 ≤ target_interval_ms L2) ∧
      (∀ (L : ℚ) (last_update now : GTimeVal), L ≤ 901 / 100 →
        (auto_limit_update_rate L last_update now).1 = 0) ∧
      (∀ e : ℚ, 0 < e → ∃ L : ℚ, 0 < auto_max_rate L ∧ auto_max_rate L < e) := by
  refine ⟨fun L1 L2 h => target_interval_ms_mono h, ?_, ?_⟩
  · intro L last_update now hL
    have hden : 1 + (L - 921 / 100) * 5 ≤ 0 := by linarith
    have hrate : auto_max_rate L ≤ 0 := by
      unfold auto_max_rate
      exact div_nonpos_iff.mpr (Or.inl ⟨by norm_num, hden⟩)
    have hthr : 1000 / auto_max_rate L ≤ 0 :=
      div_nonpos_iff.mpr (Or.inl ⟨by norm_num, hrate⟩)
    have hnn : (0 : ℚ) ≤ (gulong_of (elapsed_ms last_update now) : ℚ) := by
      positivity
    unfold auto_limit_update_rate limit_update_rate
    rw [if_neg (not_lt.mpr (hthr.trans hnn))]
  · intro e he
    refine ⟨921 / 100 + 40 / e, ?_, ?_⟩
    · unfold auto_max_rate
      have hgt : 0 < 1 + (921 / 100 + 40 / e - 921 / 100) * 5 := by
        have h40 : 0 < 40 / e := by positivity
        linarith
      positivity
    · unfold auto_max_rate
      have h200 : (0 : ℚ) < 200 / e := by positivity
      have hden : 1 + (921 / 100 + 40 / e - 921 / 100) * 5 = 1 + 200 / e := by
        ring
      rw [hden]
      rw [div_lt_iff₀ (by linarith)]
      have hmul : e * (200 / e) = 200 := by
        field_simp
      nlinarith [hmul]

/-- Claim C1, witness for the amended theorem at concrete inputs. -/
theorem auto_limit_interval_monotone_unclamped_witness :
    target_interval_ms 0 ≤ target_interval_ms 1 ∧
      (auto_limit_update_rate 0 { sec := 0, usec := 5 }
        { sec := 0, usec := 7 }).1 = 0 ∧
      (∃ L : ℚ, 0 < auto_max_rate L ∧ auto_max_rate L < 1) :=
  ⟨auto_limit_interval_monotone_unclamped.1 0 1 (by norm_num),
   auto_limit_interval_monotone_unclamped.2.1 0 _ _ (by norm_num),
   auto_limit_interval_monotone_unclamped.2.2 1 (by norm_num)⟩

/-- Claim C2: a map-parameter edit (`on_param_spinner_changed`) leaves
the session in `Idle` with every DensityBuffer cell zero, peak density
zero, IterationState reset (counter zero, point at the seed), and the
DirtyFlag false — for every prior session state. -/
theorem param_edit_clears_to_idle (s : RenderState) :
    session_mode (on_param_spinner_changed s) = SessionMode.Idle ∧
      (∀ c, (on_param_spinner_changed s).buffer.cells c = 0) ∧
      (on_param_spinner_changed s).buffer.peak = 0 ∧
      (on_param_spinner_changed s).iterations = 0 ∧
      (on_param_spinner_changed s).point = seed_point ∧
      (on_param_spinner_changed s).dirty = false := by
  simp [on_param_spinner_changed, on_start_clicked, on_stop_clicked,
        Fyre.clear, session_mode, accum_mode]

/-- Claim C3: when the dirty flag is set at GUI-update time, the rate
limiter is bypassed — the recompute and redisplay happen immediately,
with the limiter's timestamp untouched — and since the recompute clears
the flag, the bypass happens exactly once: the very next update cycle
is again subject to the rate limit (and is vetoed whenever the limiter
says so). -/
theorem dirty_flag_bypasses_limiter_once (gcurve : ℚ → ℚ → ℚ) (L : ℚ)
    (now now2 : GTimeVal) (s : RenderState) (last_update : GTimeVal)
    (hdirty : s.dirty = true)
    (hdeny : (gulong_of (elapsed_ms last_update now2) : ℚ) <
      1000 / auto_max_rate L) :
    update_gui gcurve L now s last_update =
        (update_pixels gcurve s, last_update, true) ∧
      (update_pixels gcurve s).dirty = false ∧
      (update_gui gcurve L now2 (update_pixels gcurve s) last_update).2.2
        = false := by
  refine ⟨?_, rfl, ?_⟩
  · simp [update_gui, hdirty]
  · simp [update_gui, update_pixels, auto_limit_update_rate,
          limit_update_rate, hdeny]

/-- Claim C3, witness: a concrete dirty session is redrawn immediately,
and the immediately following cycle (zero elapsed time) is vetoed. -/
theorem dirty_flag_bypasses_limiter_once_witness :
    update_gui linear_curve (93 / 10) { sec := 0, usec := 0 } dirty_session
        { sec := 0, usec := 0 } =
        (update_pixels linear_curve dirty_session,
          { sec := 0, usec := 0 }, true) ∧
      (update_pixels linear_curve dirty_session).dirty = false ∧
      (update_gui linear_curve (93 / 10) { sec := 0, usec := 0 }
        (update_pixels linear_curve dirty_session)
        { sec := 0, usec := 0 }).2.2 = false :=
  dirty_flag_bypasses_limiter_once linear_curve (93 / 10)
    { sec := 0, usec := 0 } { sec := 0, usec := 0 } dirty_session
    { sec := 0, usec := 0 } rfl
    (by
      have h1 : gulong_of (elapsed_ms { sec := 0, usec := 0 }
          { sec := 0, usec := 0 }) = 0 := by decide
      rw [h1]
      norm_num [auto_max_rate])

/-- Claim C4: for every n, `run_iterations n` advances the total
iteration counter by exactly n, and the number of DensityBuffer cell
increments performed during the call (the advance of the deposit
counter, which the engine bumps exactly when it increments a cell) is
at most n. -/
theorem run_iterations_counter_and_deposits
    (f : ℚ × ℚ → FloatVal × FloatVal) (plot : ℕ → ℚ × ℚ → ℤ × ℤ)
    (n : ℕ) (s : RenderState) :
    (run_iterations f plot n s).iterations = s.iterations + (n : ℚ) ∧
      (run_iterations f plot n s).deposits ≤ s.deposits + n :=
  advance_from_spec f plot n 0 s

/-- Claim C5: a cosmetic edit (`on_render_spinner_changed`) moves the
session to `Dirty`, and the subsequent `update_pixels` recomputes the
pixel buffer via the ToneMapper alone: the DensityBuffer afterwards is
identical to its pre-edit value, the iteration counter is untouched,
the session returns to its prior accumulation state, and the dirty flag
is cleared. -/
theorem cosmetic_edit_refresh_preserves_density (gcurve : ℚ → ℚ → ℚ)
    (s : RenderState) :
    session_mode (on_render_spinner_changed s) = SessionMode.Dirty ∧
      (update_pixels gcurve (on_render_spinner_changed s)).buffer
        = s.buffer ∧
      (update_pixels gcurve (on_render_spinner_changed s)).iterations
        = s.iterations ∧
      accum_mode (update_pixels gcurve (on_render_spinner_changed s))
        = accum_mode s ∧
      (update_pixels gcurve (on_render_spinner_changed s)).pixels
        = computePixels gcurve s.buffer s.exposure s.gamma s.fgcolor
            s.bgcolor ∧
      (update_pixels gcurve (on_render_spinner_changed s)).dirty = false := by
  simp [session_mode, accum_mode, on_render_spinner_changed, update_pixels]

/-- Claim C6: the tone-mapping recompute is deterministic — its pixel
output depends only on the density buffer, exposure, gamma and the two
colors: two states agreeing on those produce identical pixel buffers,
whatever their other fields. -/
theorem computePixels_deterministic (gcurve : ℚ → ℚ → ℚ)
    (s t : RenderState)
    (hb : s.buffer = t.buffer) (he : s.exposure = t.exposure)
    (hg : s.gamma = t.gamma) (hf : s.fgcolor = t.fgcolor)
    (hbg : s.bgcolor = t.bgcolor) :
    (update_pixels gcurve s).pixels = (update_pixels gcurve t).pixels := by
  simp [update_pixels, hb, he, hg, hf, hbg]

/-- Claim C6, witness: two concrete sessions differing in iteration
count, diagnostics and idler registration but sharing buffer and
settings yield identical pixel output. -/
theorem computePixels_deterministic_witness :
    (update_pixels linear_curve cex_session).pixels
      = (update_pixels linear_curve alt_session).pixels :=
  computePixels_deterministic linear_curve cex_session alt_session
    rfl rfl rfl rfl rfl

/-- Claim C7: the exporter reports an unwritable path as
`PathUnwritable` and a zero-dimension buffer as `EmptyBuffer`, its
result is always one of ok / EmptyBuffer / PathUnwritable (it is total
— never a fatal condition), and the render state (pixel buffer
included) is returned unchanged in every case. -/
theorem save_failure_kinds_state_unchanged (writable : String → Bool)
    (path : String) (s : RenderState) :
    (on_save_clicked writable path s).2 = s ∧
      (s.buffer.width = 0 ∨ s.buffer.height = 0 →
        (on_save_clicked writable path s).1
          = Except.error SaveError.EmptyBuffer) ∧
      (writable path = false → s.buffer.width ≠ 0 → s.buffer.height ≠ 0 →
        (on_save_clicked writable path s).1
          = Except.error SaveError.PathUnwritable) ∧
      ((on_save_clicked writable path s).1 = Except.ok () ∨
        (on_save_clicked writable path s).1
          = Except.error SaveError.EmptyBuffer ∨
        (on_save_clicked writable path s).1
          = Except.error SaveError.PathUnwritable) := by
  refine ⟨rfl, ?_, ?_, ?_⟩
  · intro h
    simp [on_save_clicked, save_to_file, h]
  · intro hw h1 h2
    simp [on_save_clicked, save_to_file, hw, h1, h2]
  · by_cases h : s.buffer.width = 0 ∨ s.buffer.height = 0
    · right
      left
      simp [on_save_clicked, save_to_file, h]
    · by_cases hw : writable path
      · left
        simp [on_save_clicked, save_to_file, h, hw]
      · right
        right
        simp [on_save_clicked, save_to_file, h, hw]

/-- Claim C7, witness: exporting a concrete non-empty session to an
unwritable path yields `PathUnwritable` and the unchanged session. -/
theorem save_failure_kinds_state_unchanged_witness :
    (on_save_clicked unwritable_env "out.png" cex_session).2
        = cex_session ∧
      (on_save_clicked unwritable_env "out.png" cex_session).1
        = Except.error SaveError.PathUnwritable :=
  ⟨(save_failure_kinds_state_unchanged unwritable_env "out.png"
      cex_session).1,
   (save_failure_kinds_state_unchanged unwritable_env "out.png"
      cex_session).2.2.1 rfl (by decide) (by decide)⟩

/-- Claim C8: whenever the map step yields a non-finite coordinate, the
engine reseeds the point to the deterministic perturbation
`reseed_point` near the origin and counts the reseed; nothing is
deposited into the DensityBuffer on such a step (the buffer and deposit
counter are untouched), the iteration counter still advances, and no
error is surfaced — `engine_step` is total into `RenderState`. -/
theorem nonfinite_reseed_behavior (f : ℚ × ℚ → FloatVal × FloatVal)
    (plotFn : ℚ × ℚ → ℤ × ℤ) (s : RenderState)
    (h : (f s.point).1 = FloatVal.nonfin ∨ (f s.point).2 = FloatVal.nonfin) :
    (engine_step f plotFn s).point = reseed_point ∧
      (engine_step f plotFn s).reseeds = s.reseeds + 1 ∧
      (engine_step f plotFn s).buffer = s.buffer ∧
      (engine_step f plotFn s).deposits = s.deposits ∧
      (engine_step f plotFn s).iterations = s.iterations + 1 := by
  unfold engine_step
  rcases hf : f s.point with ⟨a, b⟩
  rw [hf] at h
  cases a <;> cases b <;> simp_all

/-- Claim C8, witness: a concrete diverging map on a concrete session
reseeds, counts, and deposits nothing. -/
theorem nonfinite_reseed_behavior_witness :
    (engine_step nonfin_map origin_plot cex_session).point
        = reseed_point ∧
      (engine_step nonfin_map origin_plot cex_session).reseeds
        = cex_session.reseeds + 1 ∧
      (engine_step nonfin_map origin_plot cex_session).buffer
        = cex_session.buffer ∧
      (engine_step nonfin_map origin_plot cex_session).deposits
        = cex_session.deposits ∧
      (engine_step nonfin_map origin_plot cex_session).iterations
        = cex_session.iterations + 1 :=
  nonfinite_reseed_behavior nonfin_map origin_plot cex_session
    (Or.inl rfl)

/-- Claim C9, counterexample: an out-of-range parameter mutation (the
zoom spinner moved to 0, violating zoom > 0) is not rejected and does
not leave the session unchanged: the entry point
`on_param_spinner_changed` performs no validation and unconditionally
clears, so a session holding one accumulated sample comes out with that
cell zeroed — its state has changed. -/
theorem param_edit_not_rejected_cex :
    (param_spinner_edit 0 cex_session).buffer.cells (0, 0) = 0 ∧
      cex_session.buffer.cells (0, 0) = 1 := by
  constructor
  · rfl
  · decide

/-- Claim C9, amended: the mutation entry point performs no range
validation at all — for every value (in range or not) it never applies
the value (the ParameterSet is unchanged; the reads are commented out
in the source) and unconditionally resets the session via `clear()`
and restarts the idle handler, rather than leaving the session state
unchanged. -/
theorem param_edit_unvalidated_resets (v : ℚ) (s : RenderState) :
    (param_spinner_edit v s).params = s.params ∧
      (∀ c, (param_spinner_edit v s).buffer.cells c = 0) ∧
      (param_spinner_edit v s).buffer.peak = 0 ∧
      (param_spinner_edit v s).iterations = 0 ∧
      (param_spinner_edit v s).dirty = false ∧
      (param_spinner_edit v s).running = true := by
  simp [param_spinner_edit, on_param_spinner_changed, on_start_clicked,
        on_stop_clicked, Fyre.clear]

end Fyre
